/-
  Verification development for the proxicall proximity-radar demo.

  Shallow embedding of the application logic:
  * `src/types.ts`        — data model (`Coordinates`, `Contact`, `NearbyContact`)
  * `src/constants.ts`    — `MOCK_USER_START_LOCATION`, `INITIAL_CONTACTS`, `RADAR_RADIUS_KM`
  * `src/unnamed/part_000` (App component) — `moveContacts`, the simulation-interval
    callback (`simulationTick`, `tickTimer`), `toggleTracking`, `handleAddContact`
  * `src/Radar.tsx`       — the per-contact plotting computation (`radarPoint`)

  JavaScript numbers are modelled as exact rationals (`ℚ`) for the state
  arithmetic, and as reals (`ℝ`) where trigonometry is involved (the radar
  projection and the great-circle distance).  `Math.random()` draws are
  modelled by an explicit oracle `rand : ℕ → ℚ × ℚ` giving the two draws
  consumed for the contact at a given list position; every concrete outcome of
  the random perturbation is one choice of this oracle.  `Date` values are
  modelled as natural-number timestamps.

  The distance service (`src/services/locationService.ts`, function
  `calculateDistanceKm`) is not part of the sources; where its internals
  matter it is modelled from the spec (see `calculateDistanceKm` below), and
  elsewhere the simulation is parameterised by an arbitrary distance function.
-/
import Mathlib

/-- Structure `Coordinates` from `src/types.ts`: latitude/longitude in decimal degrees. -/
structure Coordinates where
  latitude : ℚ
  longitude : ℚ
deriving DecidableEq, Repr

/-- Structure `Contact` from `src/types.ts`.  `lastSeen : Date` is modelled as a
natural-number timestamp. -/
structure Contact where
  id : String
  name : String
  phoneNumber : String
  avatarUrl : String
  location : Coordinates
  isRegistered : Bool
  lastSeen : ℕ
deriving DecidableEq, Repr

/-- Structure `NearbyContact` from `src/types.ts`: a `Contact` plus its computed
distance in kilometers. -/
structure NearbyContact extends Contact where
  distanceKm : ℚ
deriving DecidableEq, Repr

/-- Constant `MOCK_USER_START_LOCATION` from `src/constants.ts`. -/
def MOCK_USER_START_LOCATION : Coordinates :=
  { latitude := 40.7128, longitude := -74.0060 }

/-- Constant `INITIAL_CONTACTS` from `src/constants.ts`; `new Date()` at module load is
the parameter `loadTime`. -/
def INITIAL_CONTACTS (loadTime : ℕ) : List Contact :=
  [ { id := "1"
    , name := "Yacob"
    , phoneNumber := "9943926886"
    , avatarUrl := "https://ui-avatars.com/api/?name=Yacob&background=random"
    , location := { latitude := 40.7145, longitude := -74.0075 }
    , isRegistered := true
    , lastSeen := loadTime } ]

/-- Constant `RADAR_RADIUS_KM` from `src/constants.ts`. -/
def RADAR_RADIUS_KM : ℚ := 5

/-- The body of the `contacts.map` callback in `moveContacts`
(`src/unnamed/part_000`, lines 32–48): a non-registered contact is returned
as-is; a registered one gets `(Math.random() - 0.5) * 0.0005` added to each
coordinate, the two draws being `r.1` and `r.2`. -/
def movePoint (r : ℚ × ℚ) (c : Contact) : Contact :=
  if !c.isRegistered then c
  else
    let latMove := (r.1 - 0.5) * 0.0005
    let lonMove := (r.2 - 0.5) * 0.0005
    { c with location :=
        { latitude := c.location.latitude + latMove
        , longitude := c.location.longitude + lonMove } }

/-- Function `moveContacts` from `src/unnamed/part_000` (lines 31–49): map over the
collection, perturbing registered contacts.  `rand i` supplies the two
`Math.random()` draws consumed for the contact at position `i`. -/
def moveContacts (rand : ℕ → ℚ × ℚ) (contacts : List Contact) : List Contact :=
  contacts.enum.map (fun ic => movePoint (rand ic.1) ic.2)

/-- The simulation-interval callback from `src/unnamed/part_000`
(lines 110–135): move the contacts, then collect (in input order) every
registered contact whose distance to the user is `≤ RADAR_RADIUS_KM`,
augmented with that distance.  Returns `(new allContacts, new
nearbyContacts)`.  The distance service being external to the sources, the
tick is parameterised by the distance function `d`. -/
def simulationTick (d : Coordinates → Coordinates → ℚ) (rand : ℕ → ℚ × ℚ)
    (userLocation : Coordinates) (contacts : List Contact) :
    List Contact × List NearbyContact :=
  let moved := moveContacts rand contacts
  let nearby := moved.filterMap (fun c =>
    if c.isRegistered then
      let dist := d userLocation c.location
      if dist ≤ RADAR_RADIUS_KM then
        some { toContact := c, distanceKm := dist }
      else none
    else none)
  (moved, nearby)

/-- The application state relevant to the verified behaviours
(`src/unnamed/part_000`, lines 54–71).  `simulationActive` models whether the
`setInterval` timer of the simulation `useEffect` is currently scheduled
(`simulationRef` / the `interval` of the effect); `clearInterval` sets it to
`false`, after which the timer callback never fires again. -/
structure AppState where
  isTracking : Bool
  userLocation : Option Coordinates
  allContacts : List Contact
  nearbyContacts : List NearbyContact
  newContactName : String
  newContactPhone : String
  isAddingContact : Bool
  simulationActive : Bool
deriving DecidableEq, Repr

/-- The initial application state (the `useState` initialisers,
`src/unnamed/part_000` lines 53–63), with `INITIAL_CONTACTS` evaluated at
module-load time `loadTime`. -/
def initialAppState (loadTime : ℕ) : AppState :=
  { isTracking := false
  , userLocation := none
  , allContacts := INITIAL_CONTACTS loadTime
  , nearbyContacts := []
  , newContactName := ""
  , newContactPhone := ""
  , isAddingContact := false
  , simulationActive := false }

/-- The `onChange` handler of the name input (`setNewContactName`). -/
def setNewContactName (v : String) (s : AppState) : AppState :=
  { s with newContactName := v }

/-- The `onChange` handler of the phone input (`setNewContactPhone`). -/
def setNewContactPhone (v : String) (s : AppState) : AppState :=
  { s with newContactPhone := v }

/-- Function `toggleTracking` from `src/unnamed/part_000` (lines 76–104).  When
tracking, it stops: `setIsTracking(false)`, `setUserLocation(null)`,
`clearInterval`.  Otherwise it starts tracking and sets the user location
from the geolocation outcome (`geoResult`), falling back to
`MOCK_USER_START_LOCATION` on denial/failure; the simulation effect then
schedules the interval. -/
def toggleTracking (geoResult : Option Coordinates) (s : AppState) : AppState :=
  if s.isTracking then
    { s with isTracking := false, userLocation := none, simulationActive := false }
  else
    { s with isTracking := true
           , userLocation := some (geoResult.getD MOCK_USER_START_LOCATION)
           , simulationActive := true }

/-- One firing of the simulation interval (`src/unnamed/part_000`,
lines 107–138).  A cleared timer (`simulationActive = false`) never fires, so
the state is unchanged; otherwise the tick updates `allContacts` and
`nearbyContacts` from `simulationTick` (the effect only installs the timer
when a user location is present). -/
def tickTimer (d : Coordinates → Coordinates → ℚ) (rand : ℕ → ℚ × ℚ)
    (s : AppState) : AppState :=
  if s.simulationActive then
    match s.userLocation with
    | none => s
    | some u =>
      let res := simulationTick d rand u s.allContacts
      { s with allContacts := res.1, nearbyContacts := res.2 }
  else s

/-- The contact literal built by `handleAddContact` (`src/unnamed/part_000`,
lines 155–167).  `now` is `Date.now()`, `rLat`/`rLon` the two
`Math.random()` draws, and `encodeURIComponent` the browser URL-encoding
function (external). -/
def mkNewContact (encodeURIComponent : String → String) (now : ℕ)
    (rLat rLon : ℚ) (name phone : String) : Contact :=
  { id := toString now
  , name := name
  , phoneNumber := phone
  , avatarUrl :=
      "https://ui-avatars.com/api/?name=" ++ encodeURIComponent name ++ "&background=random"
  , location :=
      { latitude := MOCK_USER_START_LOCATION.latitude + (rLat - 0.5) * 0.04
      , longitude := MOCK_USER_START_LOCATION.longitude + (rLon - 0.5) * 0.04 }
  , isRegistered := true
  , lastSeen := now }

/-- Model of the JavaScript builtin `String.prototype.trim` (external, used by
`handleAddContact`): strip leading and trailing whitespace. -/
def jsTrim (s : String) : String :=
  ((s.data.dropWhile Char.isWhitespace).reverse.dropWhile
    Char.isWhitespace).reverse.asString

/-- Function `handleAddContact` from `src/unnamed/part_000` (lines 152–173): return
unchanged when the trimmed name or phone is empty (JS
`!newContactName.trim() || !newContactPhone.trim()`), otherwise append the
new contact and reset the form. -/
def handleAddContact (encodeURIComponent : String → String) (now : ℕ)
    (rLat rLon : ℚ) (s : AppState) : AppState :=
  if jsTrim s.newContactName = "" ∨ jsTrim s.newContactPhone = "" then s
  else
    { s with
        allContacts := s.allContacts ++
          [mkNewContact encodeURIComponent now rLat rLon
            s.newContactName s.newContactPhone]
      , newContactName := ""
      , newContactPhone := ""
      , isAddingContact := false }

/-- Model of the JavaScript builtin `Math.atan2` (external, used by `src/Radar.tsx`),
for finite arguments. -/
noncomputable def atan2 (y x : ℝ) : ℝ :=
  if 0 < x then Real.arctan (y / x)
  else if x < 0 then
    (if 0 ≤ y then Real.arctan (y / x) + Real.pi
     else Real.arctan (y / x) - Real.pi)
  else if 0 < y then Real.pi / 2
  else if y < 0 then -(Real.pi / 2)
  else 0

/-- The per-contact plotting computation of `src/Radar.tsx` (lines 97–114):
a contact with `distanceKm > RADAR_RADIUS_KM` is skipped (`none`); otherwise
the dot is placed at angle `atan2(dLon, dLat) - π/2` and pixel distance
`(distanceKm / RADAR_RADIUS_KM) * maxRadiusPx` from `center`. -/
noncomputable def radarPoint (userLocation : Coordinates) (center : ℝ × ℝ)
    (maxRadiusPx : ℝ) (c : NearbyContact) : Option (ℝ × ℝ) :=
  let dLat : ℝ := (c.location.latitude : ℝ) - (userLocation.latitude : ℝ)
  let dLon : ℝ := (c.location.longitude : ℝ) - (userLocation.longitude : ℝ)
  if RADAR_RADIUS_KM < c.distanceKm then none
  else
    let angle := atan2 dLon dLat - Real.pi / 2
    let distPx := ((c.distanceKm : ℝ) / (RADAR_RADIUS_KM : ℝ)) * maxRadiusPx
    some (center.1 + Real.cos angle * distPx, center.2 + Real.sin angle * distPx)

/-- Degrees to radians. -/
noncomputable def toRad (deg : ℝ) : ℝ := deg * Real.pi / 180

/-- Modelled from the spec: the haversine great-circle distance (earth radius
6371 km) before display rounding.  The repository imports
`calculateDistanceKm` from `src/services/locationService.ts`, which is absent
from the sources; per the spec (§4.1) it uses "a standard spherical-earth
approximation (haversine or equivalent)". -/
noncomputable def haversineRaw (a b : Coordinates) : ℝ :=
  2 * 6371 * Real.arcsin (Real.sqrt (
    Real.sin (toRad ((b.latitude : ℝ) - (a.latitude : ℝ)) / 2) ^ 2 +
    Real.cos (toRad (a.latitude : ℝ)) * Real.cos (toRad (b.latitude : ℝ)) *
      Real.sin (toRad ((b.longitude : ℝ) - (a.longitude : ℝ)) / 2) ^ 2))

/-- Modelled from the spec: `calculateDistanceKm` of the absent
`src/services/locationService.ts`.  Per the spec (§4.1) it returns the
haversine distance "rounded/truncated to a fixed small number of decimal
places for display"; the app indeed displays the value directly
(`distanceKm km`).  We model rounding to one decimal place. -/
noncomputable def calculateDistanceKm (a b : Coordinates) : ℝ :=
  (round (haversineRaw a b * 10) : ℝ) / 10

/-! ### Basic lemmas about the simulation step -/

theorem moveContacts_length (rand : ℕ → ℚ × ℚ) (cs : List Contact) :
    (moveContacts rand cs).length = cs.length := by
  simp [moveContacts]

theorem moveContacts_get (rand : ℕ → ℚ × ℚ) (cs : List Contact) (i : ℕ)
    (h : i < cs.length) (h2 : i < (moveContacts rand cs).length) :
    (moveContacts rand cs).get ⟨i, h2⟩ = movePoint (rand i) (cs.get ⟨i, h⟩) := by
  simp [moveContacts]

/-- A fixed concrete random oracle used in witness instantiations. -/
def rand0 : ℕ → ℚ × ℚ := fun _ => (1/2, 1/2)

/-- Bound on one perturbation term of `movePoint`. -/
theorem perturb_abs_le (r : ℚ) (h0 : 0 ≤ r) (h1 : r < 1) :
    |(r - 0.5) * 0.0005| ≤ 0.00025 := by
  rw [abs_mul]
  have hr : |r - 0.5| ≤ (0.5 : ℚ) := abs_le.mpr ⟨by linarith, by linarith⟩
  have h5 : |(0.0005 : ℚ)| = 0.0005 := by norm_num
  rw [h5]
  calc |r - 0.5| * 0.0005 ≤ 0.5 * 0.0005 :=
        mul_le_mul_of_nonneg_right hr (by norm_num)
    _ = 0.00025 := by norm_num

/-- C2: One simulation tick (`moveContacts`) keeps every non-participant
entity completely unchanged, and for a participant entity changes at most the
`location` field: `id`, `name`, `phoneNumber`, `avatarUrl`, `isRegistered`
and `lastSeen` are all identical to the input (for every random outcome, at
every position of the collection; the length of the collection is preserved). -/
theorem moveContacts_frame (rand : ℕ → ℚ × ℚ) (cs : List Contact) (i : ℕ)
    (h : i < cs.length) (h2 : i < (moveContacts rand cs).length) :
    (moveContacts rand cs).length = cs.length ∧
    ((cs.get ⟨i, h⟩).isRegistered = false →
      (moveContacts rand cs).get ⟨i, h2⟩ = cs.get ⟨i, h⟩) ∧
    ((cs.get ⟨i, h⟩).isRegistered = true →
      ((moveContacts rand cs).get ⟨i, h2⟩).id = (cs.get ⟨i, h⟩).id ∧
      ((moveContacts rand cs).get ⟨i, h2⟩).name = (cs.get ⟨i, h⟩).name ∧
      ((moveContacts rand cs).get ⟨i, h2⟩).phoneNumber = (cs.get ⟨i, h⟩).phoneNumber ∧
      ((moveContacts rand cs).get ⟨i, h2⟩).avatarUrl = (cs.get ⟨i, h⟩).avatarUrl ∧
      ((moveContacts rand cs).get ⟨i, h2⟩).isRegistered = (cs.get ⟨i, h⟩).isRegistered ∧
      ((moveContacts rand cs).get ⟨i, h2⟩).lastSeen = (cs.get ⟨i, h⟩).lastSeen) := by
  refine ⟨moveContacts_length rand cs, ?_, ?_⟩ <;>
    intro hreg <;> rw [moveContacts_get rand cs i h h2] <;>
    simp only [List.get_eq_getElem] at hreg <;>
    simp [movePoint, hreg]

/-- Witness for C2 at a concrete input. -/
theorem moveContacts_frame_witness :
    (moveContacts rand0 (INITIAL_CONTACTS 0)).length = (INITIAL_CONTACTS 0).length ∧
    (((INITIAL_CONTACTS 0).get ⟨0, by decide⟩).isRegistered = false →
      (moveContacts rand0 (INITIAL_CONTACTS 0)).get ⟨0, by decide⟩ =
        (INITIAL_CONTACTS 0).get ⟨0, by decide⟩) ∧
    (((INITIAL_CONTACTS 0).get ⟨0, by decide⟩).isRegistered = true →
      ((moveContacts rand0 (INITIAL_CONTACTS 0)).get ⟨0, by decide⟩).id =
        ((INITIAL_CONTACTS 0).get ⟨0, by decide⟩).id ∧
      ((moveContacts rand0 (INITIAL_CONTACTS 0)).get ⟨0, by decide⟩).name =
        ((INITIAL_CONTACTS 0).get ⟨0, by decide⟩).name ∧
      ((moveContacts rand0 (INITIAL_CONTACTS 0)).get ⟨0, by decide⟩).phoneNumber =
        ((INITIAL_CONTACTS 0).get ⟨0, by decide⟩).phoneNumber ∧
      ((moveContacts rand0 (INITIAL_CONTACTS 0)).get ⟨0, by decide⟩).avatarUrl =
        ((INITIAL_CONTACTS 0).get ⟨0, by decide⟩).avatarUrl ∧
      ((moveContacts rand0 (INITIAL_CONTACTS 0)).get ⟨0, by decide⟩).isRegistered =
        ((INITIAL_CONTACTS 0).get ⟨0, by decide⟩).isRegistered ∧
      ((moveContacts rand0 (INITIAL_CONTACTS 0)).get ⟨0, by decide⟩).lastSeen =
        ((INITIAL_CONTACTS 0).get ⟨0, by decide⟩).lastSeen) :=
  moveContacts_frame rand0 (INITIAL_CONTACTS 0) 0 (by decide) (by decide)

/-- C3: For a participant (registered) entity and any outcome of the two
uniform draws in `[0,1)`, one tick of `moveContacts` changes its latitude and
its longitude each by at most `0.00025` degrees in absolute value (half the
configured per-tick magnitude `0.0005`). -/
theorem moveContacts_participant_bound (rand : ℕ → ℚ × ℚ) (cs : List Contact)
    (i : ℕ) (h : i < cs.length) (h2 : i < (moveContacts rand cs).length)
    (hreg : (cs.get ⟨i, h⟩).isRegistered = true)
    (hr1 : 0 ≤ (rand i).1) (hr1b : (rand i).1 < 1)
    (hr2 : 0 ≤ (rand i).2) (hr2b : (rand i).2 < 1) :
    |((moveContacts rand cs).get ⟨i, h2⟩).location.latitude -
        (cs.get ⟨i, h⟩).location.latitude| ≤ 0.00025 ∧
    |((moveContacts rand cs).get ⟨i, h2⟩).location.longitude -
        (cs.get ⟨i, h⟩).location.longitude| ≤ 0.00025 := by
  rw [moveContacts_get rand cs i h h2]
  simp only [List.get_eq_getElem] at hreg ⊢
  have elat : (movePoint (rand i) cs[i]).location.latitude =
      cs[i].location.latitude + ((rand i).1 - 0.5) * 0.0005 := by
    simp [movePoint, hreg]
  have elon : (movePoint (rand i) cs[i]).location.longitude =
      cs[i].location.longitude + ((rand i).2 - 0.5) * 0.0005 := by
    simp [movePoint, hreg]
  rw [elat, elon]
  constructor
  · have e : cs[i].location.latitude + ((rand i).1 - 0.5) * 0.0005 -
        cs[i].location.latitude = ((rand i).1 - 0.5) * 0.0005 := by ring
    rw [e]; exact perturb_abs_le _ hr1 hr1b
  · have e : cs[i].location.longitude + ((rand i).2 - 0.5) * 0.0005 -
        cs[i].location.longitude = ((rand i).2 - 0.5) * 0.0005 := by ring
    rw [e]; exact perturb_abs_le _ hr2 hr2b

/-- Witness for C3 at a concrete input. -/
theorem moveContacts_participant_bound_witness :
    |((moveContacts rand0 (INITIAL_CONTACTS 0)).get ⟨0, by decide⟩).location.latitude -
        ((INITIAL_CONTACTS 0).get ⟨0, by decide⟩).location.latitude| ≤ 0.00025 ∧
    |((moveContacts rand0 (INITIAL_CONTACTS 0)).get ⟨0, by decide⟩).location.longitude -
        ((INITIAL_CONTACTS 0).get ⟨0, by decide⟩).location.longitude| ≤ 0.00025 :=
  moveContacts_participant_bound rand0 (INITIAL_CONTACTS 0) 0 (by decide) (by decide)
    (by decide) (by norm_num [rand0]) (by norm_num [rand0])
    (by norm_num [rand0]) (by norm_num [rand0])

/-- The `forEach`/`push` loop of the interval callback, written as a
`filterMap`, equals a stable filter followed by distance augmentation. -/
theorem filterMap_nearby (d : Coordinates → Coordinates → ℚ) (u : Coordinates) :
    ∀ l : List Contact,
      l.filterMap (fun c =>
        if c.isRegistered then
          let dist := d u c.location
          if dist ≤ RADAR_RADIUS_KM then
            some ({ toContact := c, distanceKm := dist } : NearbyContact)
          else none
        else none) =
      (l.filter fun c =>
          c.isRegistered && decide (d u c.location ≤ RADAR_RADIUS_KM)).map
        (fun c => ({ toContact := c, distanceKm := d u c.location } : NearbyContact))
  | [] => rfl
  | c :: l => by
    rw [List.filterMap_cons, List.filter_cons]
    by_cases hreg : c.isRegistered
    · by_cases hd : d u c.location ≤ RADAR_RADIUS_KM
      · simp [hreg, hd, filterMap_nearby d u l]
      · simp [hreg, hd, filterMap_nearby d u l]
    · simp [hreg, filterMap_nearby d u l]

/-- C1: The nearby subset produced by one simulation tick is exactly the
participant entities of the perturbed collection whose computed distance to
the user is `≤ RADAR_RADIUS_KM` (boundary included, by `≤`), each augmented
with that distance, in the same relative order as the input collection
(a stable filter of the output of `moveContacts`, followed by augmentation). -/
theorem simulationTick_nearby_spec (d : Coordinates → Coordinates → ℚ)
    (rand : ℕ → ℚ × ℚ) (u : Coordinates) (cs : List Contact) :
    (simulationTick d rand u cs).2 =
      ((moveContacts rand cs).filter fun c =>
          c.isRegistered && decide (d u c.location ≤ RADAR_RADIUS_KM)).map
        (fun c => ({ toContact := c, distanceKm := d u c.location } : NearbyContact)) := by
  simp only [simulationTick]
  exact filterMap_nearby d u (moveContacts rand cs)

/-- A fixed concrete distance function used in witness instantiations. -/
def dist0 : Coordinates → Coordinates → ℚ := fun _ _ => 0

/-- C6: Toggling tracking off from a tracking state clears the user
position, deactivates the periodic simulation timer, and a (previously
scheduled) firing of that timer afterwards leaves the state — in particular
the entity collection and the nearby set — completely unchanged. -/
theorem toggleTracking_stop (geoResult : Option Coordinates) (s : AppState)
    (d : Coordinates → Coordinates → ℚ) (rand : ℕ → ℚ × ℚ)
    (h : s.isTracking = true) :
    (toggleTracking geoResult s).userLocation = none ∧
    (toggleTracking geoResult s).simulationActive = false ∧
    tickTimer d rand (toggleTracking geoResult s) = toggleTracking geoResult s := by
  simp [toggleTracking, h, tickTimer]

/-- Witness for C6 at a concrete input. -/
theorem toggleTracking_stop_witness :
    (toggleTracking none { initialAppState 0 with isTracking := true }).userLocation
        = none ∧
    (toggleTracking none { initialAppState 0 with isTracking := true }).simulationActive
        = false ∧
    tickTimer dist0 rand0 (toggleTracking none { initialAppState 0 with isTracking := true })
        = toggleTracking none { initialAppState 0 with isTracking := true } :=
  toggleTracking_stop none { initialAppState 0 with isTracking := true } dist0 rand0 rfl

/-- C7: When the trimmed contact name or the trimmed phone is empty,
`handleAddContact` returns the state unchanged (so the entity collection is
unchanged and no error message is produced — the model has no error channel
and the handler returns silently).  In particular an empty name with a
non-empty phone is rejected. -/
theorem handleAddContact_rejects (encodeURIComponent : String → String)
    (now : ℕ) (rLat rLon : ℚ) (s : AppState)
    (h : jsTrim s.newContactName = "" ∨ jsTrim s.newContactPhone = "") :
    handleAddContact encodeURIComponent now rLat rLon s = s := by
  simp [handleAddContact, h]

/-- Witness for C7: an empty name with a non-empty phone is rejected. -/
theorem handleAddContact_rejects_witness :
    handleAddContact id 1000 (1/2) (1/2)
        { initialAppState 0 with newContactPhone := "5551234" }
      = { initialAppState 0 with newContactPhone := "5551234" } :=
  handleAddContact_rejects id 1000 (1/2) (1/2)
    { initialAppState 0 with newContactPhone := "5551234" } (Or.inl (by decide))

/-- Bound on the placement offset of a newly added contact. -/
theorem addOffset_abs_le (r : ℚ) (h0 : 0 ≤ r) (h1 : r < 1) :
    |(r - 0.5) * 0.04| ≤ 0.02 := by
  rw [abs_mul]
  have hr : |r - 0.5| ≤ (0.5 : ℚ) := abs_le.mpr ⟨by linarith, by linarith⟩
  have h4 : |(0.04 : ℚ)| = 0.04 := by norm_num
  rw [h4]
  calc |r - 0.5| * 0.04 ≤ 0.5 * 0.04 :=
        mul_le_mul_of_nonneg_right hr (by norm_num)
    _ = 0.02 := by norm_num

/-- C10: A successful add appends the new contact at the end of the
collection (all pre-existing entities unchanged), with `isRegistered = true`,
a location within `0.02` degrees of `MOCK_USER_START_LOCATION` in each
coordinate (for draws in `[0,1)`), and `lastSeen` equal to the current
timestamp. -/
theorem handleAddContact_appends (enc : String → String) (now : ℕ)
    (rLat rLon : ℚ) (s : AppState)
    (hname : jsTrim s.newContactName ≠ "") (hphone : jsTrim s.newContactPhone ≠ "")
    (h1 : 0 ≤ rLat) (h2 : rLat < 1) (h3 : 0 ≤ rLon) (h4 : rLon < 1) :
    (handleAddContact enc now rLat rLon s).allContacts =
      s.allContacts ++
        [mkNewContact enc now rLat rLon s.newContactName s.newContactPhone] ∧
    (mkNewContact enc now rLat rLon s.newContactName s.newContactPhone).isRegistered
        = true ∧
    |(mkNewContact enc now rLat rLon s.newContactName s.newContactPhone).location.latitude -
        MOCK_USER_START_LOCATION.latitude| ≤ 0.02 ∧
    |(mkNewContact enc now rLat rLon s.newContactName s.newContactPhone).location.longitude -
        MOCK_USER_START_LOCATION.longitude| ≤ 0.02 ∧
    (mkNewContact enc now rLat rLon s.newContactName s.newContactPhone).lastSeen = now := by
  refine ⟨by simp [handleAddContact, hname, hphone], rfl, ?_, ?_, rfl⟩
  · have e : (mkNewContact enc now rLat rLon s.newContactName
        s.newContactPhone).location.latitude -
        MOCK_USER_START_LOCATION.latitude = (rLat - 0.5) * 0.04 := by
      simp [mkNewContact]
    rw [e]; exact addOffset_abs_le _ h1 h2
  · have e : (mkNewContact enc now rLat rLon s.newContactName
        s.newContactPhone).location.longitude -
        MOCK_USER_START_LOCATION.longitude = (rLon - 0.5) * 0.04 := by
      simp [mkNewContact]
    rw [e]; exact addOffset_abs_le _ h3 h4

/-- A fixed concrete form state used in witness instantiations: name `Bob`,
phone `555`. -/
def formState0 : AppState :=
  { initialAppState 0 with newContactName := "Bob", newContactPhone := "555" }

/-- Witness for C10 at a concrete input. -/
theorem handleAddContact_appends_witness :
    (handleAddContact id 7 (1/2) (1/2) formState0).allContacts =
      formState0.allContacts ++
        [mkNewContact id 7 (1/2) (1/2) formState0.newContactName
          formState0.newContactPhone] ∧
    (mkNewContact id 7 (1/2) (1/2) formState0.newContactName
        formState0.newContactPhone).isRegistered = true ∧
    |(mkNewContact id 7 (1/2) (1/2) formState0.newContactName
        formState0.newContactPhone).location.latitude -
        MOCK_USER_START_LOCATION.latitude| ≤ 0.02 ∧
    |(mkNewContact id 7 (1/2) (1/2) formState0.newContactName
        formState0.newContactPhone).location.longitude -
        MOCK_USER_START_LOCATION.longitude| ≤ 0.02 ∧
    (mkNewContact id 7 (1/2) (1/2) formState0.newContactName
        formState0.newContactPhone).lastSeen = 7 :=
  handleAddContact_appends id 7 (1/2) (1/2) formState0
    (by decide) (by decide) (by norm_num) (by norm_num) (by norm_num) (by norm_num)

/-- C4: For a nearby entity with precomputed distance `≤ RADAR_RADIUS_KM`,
the radar projection plots it at angle `atan2(Δlon, Δlat) − π/2` (the −90°
rotation) and pixel distance `(distanceKm / RADAR_RADIUS_KM) * maxRadiusPx`,
i.e. at the Cartesian point
`(centerX + cos(angle)·distPx, centerY + sin(angle)·distPx)`. -/
theorem radarPoint_formula (u : Coordinates) (ctr : ℝ × ℝ) (m : ℝ)
    (c : NearbyContact) (h : c.distanceKm ≤ RADAR_RADIUS_KM) :
    radarPoint u ctr m c =
      some
        (ctr.1 + Real.cos (atan2 ((c.location.longitude : ℝ) - (u.longitude : ℝ))
            ((c.location.latitude : ℝ) - (u.latitude : ℝ)) - Real.pi / 2) *
          (((c.distanceKm : ℝ) / (RADAR_RADIUS_KM : ℝ)) * m),
         ctr.2 + Real.sin (atan2 ((c.location.longitude : ℝ) - (u.longitude : ℝ))
            ((c.location.latitude : ℝ) - (u.latitude : ℝ)) - Real.pi / 2) *
          (((c.distanceKm : ℝ) / (RADAR_RADIUS_KM : ℝ)) * m)) := by
  have hn : ¬ RADAR_RADIUS_KM < c.distanceKm := not_lt.mpr h
  simp [radarPoint, hn]

/-- A concrete nearby contact (distance 2 km) for witness instantiations. -/
def nc0 : NearbyContact :=
  { id := "w1"
  , name := "W"
  , phoneNumber := "0"
  , avatarUrl := ""
  , location := { latitude := 40.7145, longitude := -74.0075 }
  , isRegistered := true
  , lastSeen := 0
  , distanceKm := 2 }

/-- A concrete out-of-range contact (distance 7 km) for witness
instantiations. -/
def nc1 : NearbyContact :=
  { nc0 with id := "w2", distanceKm := 7 }

/-- Witness for C4 at a concrete input. -/
theorem radarPoint_formula_witness :
    radarPoint MOCK_USER_START_LOCATION (0, 0) 150 nc0 =
      some
        ((0 : ℝ) + Real.cos (atan2 ((nc0.location.longitude : ℝ) -
            (MOCK_USER_START_LOCATION.longitude : ℝ))
            ((nc0.location.latitude : ℝ) - (MOCK_USER_START_LOCATION.latitude : ℝ)) -
            Real.pi / 2) * (((nc0.distanceKm : ℝ) / (RADAR_RADIUS_KM : ℝ)) * 150),
         (0 : ℝ) + Real.sin (atan2 ((nc0.location.longitude : ℝ) -
            (MOCK_USER_START_LOCATION.longitude : ℝ))
            ((nc0.location.latitude : ℝ) - (MOCK_USER_START_LOCATION.latitude : ℝ)) -
            Real.pi / 2) * (((nc0.distanceKm : ℝ) / (RADAR_RADIUS_KM : ℝ)) * 150)) :=
  radarPoint_formula MOCK_USER_START_LOCATION (0, 0) 150 nc0 (by decide)

/-- C5: Every entity whose precomputed distance exceeds `RADAR_RADIUS_KM`
is excluded from plotting, and every plotted point lies within the visible
radius: its Euclidean pixel distance from the display center is at most
`maxRadiusPx` (for a nonnegative precomputed distance and radius). -/
theorem radarPoint_in_radius (u : Coordinates) (ctr : ℝ × ℝ) (m : ℝ)
    (c : NearbyContact) (p : ℝ × ℝ)
    (hd : 0 ≤ c.distanceKm) (hm : 0 ≤ m) :
    (RADAR_RADIUS_KM < c.distanceKm → radarPoint u ctr m c = none) ∧
    (radarPoint u ctr m c = some p →
      Real.sqrt ((p.1 - ctr.1) ^ 2 + (p.2 - ctr.2) ^ 2) ≤ m) := by
  constructor
  · intro hgt; simp [radarPoint, hgt]
  · intro hp
    by_cases hgt : RADAR_RADIUS_KM < c.distanceKm
    · simp [radarPoint, hgt] at hp
    · set θ : ℝ := atan2 ((c.location.longitude : ℝ) - (u.longitude : ℝ))
        ((c.location.latitude : ℝ) - (u.latitude : ℝ)) - Real.pi / 2 with hθ
      set q : ℝ := ((c.distanceKm : ℝ) / (RADAR_RADIUS_KM : ℝ)) * m with hq
      have hp2 : p = (ctr.1 + Real.cos θ * q, ctr.2 + Real.sin θ * q) := by
        simp only [radarPoint, if_neg hgt, Option.some.injEq] at hp
        rw [← hp]
      subst hp2
      have e : (ctr.1 + Real.cos θ * q - ctr.1) ^ 2 +
          (ctr.2 + Real.sin θ * q - ctr.2) ^ 2 = q ^ 2 := by
        calc (ctr.1 + Real.cos θ * q - ctr.1) ^ 2 +
            (ctr.2 + Real.sin θ * q - ctr.2) ^ 2
            = (Real.sin θ ^ 2 + Real.cos θ ^ 2) * q ^ 2 := by ring
          _ = q ^ 2 := by rw [Real.sin_sq_add_cos_sq]; ring
      have hd5 : (c.distanceKm : ℝ) ≤ 5 := by
        have : c.distanceKm ≤ 5 := not_lt.mp (by simpa [RADAR_RADIUS_KM] using hgt)
        exact_mod_cast this
      have hdR : (0 : ℝ) ≤ (c.distanceKm : ℝ) := by exact_mod_cast hd
      have hRK : ((RADAR_RADIUS_KM : ℚ) : ℝ) = 5 := by norm_num [RADAR_RADIUS_KM]
      have hq0 : 0 ≤ q := by
        rw [hq, hRK]
        exact mul_nonneg (div_nonneg hdR (by norm_num)) hm
      have hqm : q ≤ m := by
        rw [hq, hRK]
        have hle1 : (c.distanceKm : ℝ) / 5 ≤ 1 := (div_le_one (by norm_num)).mpr hd5
        calc (c.distanceKm : ℝ) / 5 * m ≤ 1 * m :=
              mul_le_mul_of_nonneg_right hle1 hm
          _ = m := one_mul m
      calc Real.sqrt ((ctr.1 + Real.cos θ * q - ctr.1) ^ 2 +
            (ctr.2 + Real.sin θ * q - ctr.2) ^ 2)
          = Real.sqrt (q ^ 2) := by rw [e]
        _ = |q| := Real.sqrt_sq_eq_abs q
        _ = q := abs_of_nonneg hq0
        _ ≤ m := hqm

/-- Witness for C5 at a concrete input: a contact at 7 km is excluded. -/
theorem radarPoint_in_radius_witness :
    (RADAR_RADIUS_KM < nc1.distanceKm →
      radarPoint MOCK_USER_START_LOCATION (0, 0) 150 nc1 = none) ∧
    (radarPoint MOCK_USER_START_LOCATION (0, 0) 150 nc1 = some ((0 : ℝ), (0 : ℝ)) →
      Real.sqrt ((((0 : ℝ), (0 : ℝ)).1 - ((0 : ℝ), (0 : ℝ)).1) ^ 2 +
        (((0 : ℝ), (0 : ℝ)).2 - ((0 : ℝ), (0 : ℝ)).2) ^ 2) ≤ 150) :=
  radarPoint_in_radius MOCK_USER_START_LOCATION (0, 0) 150 nc1 ((0 : ℝ), (0 : ℝ))
    (by decide) (by norm_num)

/-- The raw haversine distance is symmetric. -/
theorem haversineRaw_symm (a b : Coordinates) : haversineRaw a b = haversineRaw b a := by
  have key : ∀ x : ℝ, Real.sin (toRad (-x) / 2) ^ 2 = Real.sin (toRad x / 2) ^ 2 := by
    intro x
    have h1 : toRad (-x) = -toRad x := by unfold toRad; ring
    rw [h1, neg_div, Real.sin_neg]
    ring
  unfold haversineRaw
  congr 3
  have e1 : (a.latitude : ℝ) - (b.latitude : ℝ) =
      -((b.latitude : ℝ) - (a.latitude : ℝ)) := by ring
  have e2 : (a.longitude : ℝ) - (b.longitude : ℝ) =
      -((b.longitude : ℝ) - (a.longitude : ℝ)) := by ring
  rw [e1, e2, key, key]
  ring

/-- The raw haversine distance from a point to itself is zero. -/
theorem haversineRaw_self (a : Coordinates) : haversineRaw a a = 0 := by
  unfold haversineRaw
  simp [toRad]

/-- C8: The distance utility is symmetric, and the distance from any
coordinate to itself is `0` (both preserved by the display rounding). -/
theorem calculateDistanceKm_metric (a b : Coordinates) :
    calculateDistanceKm a b = calculateDistanceKm b a ∧
    calculateDistanceKm a a = 0 := by
  constructor
  · unfold calculateDistanceKm
    rw [haversineRaw_symm]
  · unfold calculateDistanceKm
    rw [haversineRaw_self]
    norm_num

/-! ### Decimal representation of timestamps (`Date.now().toString()`) -/

/-- The function `Nat.digitChar` is injective on digits below 10. -/
theorem digitChar_inj_lt (a b : ℕ) (ha : a < 10) (hb : b < 10)
    (h : Nat.digitChar a = Nat.digitChar b) : a = b := by
  interval_cases a <;> interval_cases b <;> revert h <;> decide

/-- Mapping `Nat.digitChar` over lists of digits below 10 is injective. -/
theorem map_digitChar_inj :
    ∀ (l1 l2 : List ℕ), (∀ x ∈ l1, x < 10) → (∀ x ∈ l2, x < 10) →
      l1.map Nat.digitChar = l2.map Nat.digitChar → l1 = l2
  | [], [], _, _, _ => rfl
  | [], _ :: _, _, _, h => by simp at h
  | _ :: _, [], _, _, h => by simp at h
  | a :: l1, b :: l2, h1, h2, h => by
    simp only [List.map_cons, List.cons.injEq] at h
    have hab := digitChar_inj_lt a b (h1 a (by simp)) (h2 b (by simp)) h.1
    have htl := map_digitChar_inj l1 l2 (fun x hx => h1 x (by simp [hx]))
      (fun x hx => h2 x (by simp [hx])) h.2
    rw [hab, htl]

/-- The function `Nat.toDigitsCore` computes the reversed decimal digit characters, for
sufficient fuel. -/
theorem toDigitsCore_eq_digits :
    ∀ (f n : ℕ) (acc : List Char), 0 < n → n < f →
      Nat.toDigitsCore 10 f n acc =
        ((Nat.digits 10 n).map Nat.digitChar).reverse ++ acc
  | 0, _, _, _hn, hf => absurd hf (by omega)
  | f + 1, n, acc, hn, hf => by
    have hd : Nat.digits 10 n = n % 10 :: Nat.digits 10 (n / 10) :=
      Nat.digits_def' (by norm_num) hn
    show (if n / 10 = 0 then Nat.digitChar (n % 10) :: acc
          else Nat.toDigitsCore 10 f (n / 10) (Nat.digitChar (n % 10) :: acc)) = _
    by_cases h0 : n / 10 = 0
    · rw [if_pos h0, hd, h0]
      simp
    · rw [if_neg h0]
      have hlt : n / 10 < f := by
        have : n / 10 < n := Nat.div_lt_self hn (by norm_num)
        omega
      rw [toDigitsCore_eq_digits f (n / 10) (Nat.digitChar (n % 10) :: acc)
            (Nat.pos_of_ne_zero h0) hlt, hd]
      simp

/-- For a positive number, `Nat.repr` is the reversed digit-character list. -/
theorem repr_eq_digits (n : ℕ) (hn : 0 < n) :
    Nat.repr n = (((Nat.digits 10 n).map Nat.digitChar).reverse).asString := by
  unfold Nat.repr Nat.toDigits
  rw [toDigitsCore_eq_digits (n + 1) n [] hn (by omega)]
  simp

/-- The function `List.asString` is injective. -/
theorem asString_inj {l1 l2 : List Char} (h : l1.asString = l2.asString) :
    l1 = l2 := by
  simpa [List.asString] using congrArg String.data h

/-- No positive number has the decimal representation of `0`. -/
theorem repr_pos_ne_repr_zero (n : ℕ) (hn : 0 < n) : Nat.repr n ≠ Nat.repr 0 := by
  intro h
  rw [repr_eq_digits n hn] at h
  have h0 : Nat.repr 0 = List.asString ['0'] := rfl
  rw [h0] at h
  have h1 : ((Nat.digits 10 n).map Nat.digitChar).reverse = ['0'] := asString_inj h
  have h2 : (Nat.digits 10 n).map Nat.digitChar = ['0'] := by
    have := congrArg List.reverse h1
    simpa using this
  have hne : n ≠ 0 := Nat.pos_iff_ne_zero.mp hn
  cases hdig : Nat.digits 10 n with
  | nil => rw [hdig] at h2; simp at h2
  | cons a tl =>
    rw [hdig] at h2
    simp only [List.map_cons, List.cons.injEq] at h2
    have htl : tl = [] := by
      have := h2.2
      cases tl with
      | nil => rfl
      | cons b tl2 => simp at this
    have ha10 : a < 10 := Nat.digits_lt_base (by norm_num) (hdig ▸ List.mem_cons_self a tl)
    have ha0 : a = 0 := digitChar_inj_lt a 0 ha10 (by norm_num) h2.1
    have hd0 : Nat.digits 10 n = [0] := by rw [hdig, htl, ha0]
    have hofd := congrArg (Nat.ofDigits 10) hd0
    rw [Nat.ofDigits_digits] at hofd
    simp [Nat.ofDigits] at hofd
    exact hne hofd

/-- Injectivity of `Nat.repr` (the decimal string of a timestamp). -/
theorem natRepr_injective {m n : ℕ} (h : Nat.repr m = Nat.repr n) : m = n := by
  rcases Nat.eq_zero_or_pos m with hm | hm <;> rcases Nat.eq_zero_or_pos n with hn | hn
  · rw [hm, hn]
  · exact absurd (hm ▸ h).symm (repr_pos_ne_repr_zero n hn)
  · exact absurd (hn ▸ h) (repr_pos_ne_repr_zero m hm)
  · rw [repr_eq_digits m hm, repr_eq_digits n hn] at h
    have h1 := asString_inj h
    have h2 : (Nat.digits 10 m).map Nat.digitChar = (Nat.digits 10 n).map Nat.digitChar := by
      have := congrArg List.reverse h1
      simpa using this
    have h3 := map_digitChar_inj _ _
      (fun x hx => Nat.digits_lt_base (by norm_num) hx)
      (fun x hx => Nat.digits_lt_base (by norm_num) hx) h2
    exact Nat.digits_inj_iff.mp h3

/-- Counterexample to C9 as stated: two add operations performed at the same
timestamp (`Date.now() = 17` for both, possible within one millisecond)
produce two entities with the same id `"17"`, so a reachable entity
collection has ids that are not pairwise distinct. -/
theorem addContact_duplicate_ids :
    ¬ List.Nodup (List.map Contact.id (AppState.allContacts
        (handleAddContact id 17 (1/2) (1/2)
          (setNewContactName "B" (setNewContactPhone "2"
            (handleAddContact id 17 (1/2) (1/2)
              (setNewContactName "A" (setNewContactPhone "1"
                (initialAppState 0))))))))) := by
  decide

/-- C9 (amended): Entities created by the add operation at distinct
timestamps have distinct ids: the id is the decimal string of `Date.now()`,
which is injective in the timestamp.  (Uniqueness can fail only for adds
within the same millisecond, or against an existing id with the same decimal
string.) -/
theorem mkNewContact_id_inj (e1 e2 : String → String) (m n : ℕ)
    (r1 r2 r3 r4 : ℚ) (nm1 ph1 nm2 ph2 : String) (h : m ≠ n) :
    (mkNewContact e1 m r1 r2 nm1 ph1).id ≠ (mkNewContact e2 n r3 r4 nm2 ph2).id := by
  intro hid
  simp only [mkNewContact] at hid
  exact h (natRepr_injective hid)

/-- Witness for the amended C9 at concrete timestamps. -/
theorem mkNewContact_id_inj_witness :
    (1 : ℕ) ≠ 2 ∧
    (mkNewContact id 1 0 0 "A" "1").id ≠ (mkNewContact id 2 0 0 "B" "2").id :=
  ⟨by decide, mkNewContact_id_inj id id 1 2 0 0 0 0 "A" "1" "B" "2" (by decide)⟩
